import Mathlib

/-!
Verification development for the GeoQuiz server (`src/server.py`).

The Python source is shallowly embedded:
* floating-point latitude/longitude values are modelled by their decimal
  string rendering (the source performs no arithmetic on them, it only
  passes them through and interpolates them into strings);
* the mutable module-level `QuizStore` becomes explicit state passing:
  every operation takes the store and returns the store it leaves behind;
* Python exceptions become `Except String` values carrying the exact
  message strings of the source;
* the external geocoder (`Nominatim.reverse`) is a parameter of type
  `Geocoder`, returning `none` when no location is resolved;
* Python dicts are association lists preserving insertion order, with
  dict assignment (`assocSet`) and key lookup (`assocGet`) modelling
  `d[k] = v` and `d[k]` / `k in d`;
* interpolation of an integer (`f"quiz-{n}"`, `f"zoom={zoom}"`) is
  modelled by an explicit decimal renderer (`natRepr`, `toString` on `Int`).
-/

/-- Decimal digit rendering helper: fuel-indexed digit list of a natural
number, most significant digit first, mirroring Python `str(int)` for
non-negative values.  The fuel argument only serves termination; `natRepr`
always supplies enough. -/
def natReprAux : Nat → Nat → List Char
  | 0, _ => []
  | f + 1, n =>
    if n < 10 then [Nat.digitChar n]
    else natReprAux f (n / 10) ++ [Nat.digitChar (n % 10)]

/-- Decimal rendering of a natural number, modelling Python string
interpolation of a non-negative int. -/
def natRepr (n : Nat) : String :=
  String.mk (natReprAux (n + 1) n)

/-- Numeric value of a decimal digit character. -/
def digitVal (c : Char) : Nat := c.toNat - 48

/-- Value of a most-significant-first digit list. -/
def digitsVal (l : List Char) : Nat :=
  l.foldl (fun acc c => 10 * acc + digitVal c) 0

/-- Quiz identifier allocated for the `n`-th record: `f"quiz-{n}"`. -/
def mkId (n : Nat) : String := "quiz-" ++ natRepr n

/-- The validated quiz candidate built by `create_map_quiz` (the
`location_data` dict of `src/server.py`, lines 257-265).  `create_map_quiz`
always populates every key, so the candidate is a structure with total
fields; in particular the `candidate.get("quiz_type", "미지정")` fallback of
the source is dead for store-created records. -/
structure Candidate where
  condition : String
  address : String
  quiz_type : String
  lat : String
  lon : String
  zoom : Int
  tags : List String
  deriving Repr, DecidableEq

/-- A stored quiz record (`{"quiz_id": ..., "candidate": ...}`). -/
structure QuizRecord where
  quiz_id : String
  candidate : Candidate
  deriving Repr, DecidableEq

/-- Python dict key lookup `m[k]` on an insertion-ordered association
list: first (and, for dict-built lists, only) binding of the key. -/
def assocGet : List (String × QuizRecord) → String → Option QuizRecord
  | [], _ => none
  | (k, v) :: rest, key => if k = key then some v else assocGet rest key

/-- Python dict assignment `m[k] = v`: replaces the binding in place when
the key is present, otherwise appends it at the end. -/
def assocSet : List (String × QuizRecord) → String → QuizRecord → List (String × QuizRecord)
  | [], key, v => [(key, v)]
  | (k, w) :: rest, key, v =>
    if k = key then (key, v) :: rest else (k, w) :: assocSet rest key v

/-- In-memory quiz session storage (`class QuizStore`). -/
structure QuizStore where
  _store : List (String × QuizRecord)
  deriving Repr, DecidableEq

/-- The store a fresh `QuizStore()` starts from. -/
def QuizStore.empty : QuizStore := ⟨[]⟩

/-- Embeds `QuizStore.create` (lines 38-46): allocates
`quiz_id = f"quiz-{len(self._store) + 1}"`, stores
`{"quiz_id": quiz_id, "candidate": location_data}` under it and returns
the record together with the updated store. -/
def QuizStore.create (s : QuizStore) (location_data : Candidate) :
    QuizStore × QuizRecord :=
  let quiz_id := mkId (s._store.length + 1)
  let record : QuizRecord := ⟨quiz_id, location_data⟩
  (⟨assocSet s._store quiz_id record⟩, record)

/-- Error message raised by `QuizStore.get` on an unknown identifier
(line 50 of the source). -/
def not_found_msg : String := "Unknown quiz_id; request a new quiz first."

/-- Embeds `QuizStore.get` (lines 48-51): exact-match lookup; raises
`ValueError("Unknown quiz_id; request a new quiz first.")` when absent. -/
def QuizStore.get (s : QuizStore) (quiz_id : String) : Except String QuizRecord :=
  match assocGet s._store quiz_id with
  | none => Except.error not_found_msg
  | some r => Except.ok r

/-- Module-level API key; the environment default `"DEMO_KEY"` (line 13).
Claims about URLs only use it as an opaque constant. -/
def VWORLD_API_KEY : String := "DEMO_KEY"

/-- Default static image size (line 14). -/
def DEFAULT_IMAGE_SIZE : String := "1024,1024"

/-- Embedding of `_build_vworld_static_url` (lines 17-26): pure string
construction of the VWorld static-map URL from the rendered coordinates,
the zoom level, the basemap name and the image size. -/
def build_vworld_static_url (lon lat : String) (zoom : Int) (basemap : String)
    (size : String) : String :=
  "https://api.vworld.kr/req/image?service=image&request=getmap&key=" ++
    VWORLD_API_KEY ++ "&center=" ++ lon ++ "," ++ lat ++ "&zoom=" ++
    toString zoom ++ "&basemap=" ++ basemap ++ "&format=png&size=" ++ size

/-- Google-Maps answer-verification URL of `request_answer` (line 328):
`f"https://www.google.com/maps/@{lat},{lon},{zoom}z"`. -/
def google_maps_url (lat lon : String) (zoom : Int) : String :=
  "https://www.google.com/maps/@" ++ lat ++ "," ++ lon ++ "," ++
    toString zoom ++ "z"

/-- Values appearing in the JSON-like response dicts of the tools. -/
inductive Value where
  | str (v : String)
  | int (v : Int)
  | center (lon lat : String)
  | strList (v : List String)
  deriving Repr, DecidableEq

/-- The external reverse geocoder (`Nominatim.reverse`), a collaborator:
takes the rendered latitude and longitude, returns the resolved address or
`none`. -/
abbrev Geocoder := String → String → Option String

/-- Zoom validation of `create_map_quiz` (lines 243-246): foreign
locations must have `7 <= zoom <= 8`, Korean locations `10 <= zoom <= 16`;
returns the `ValueError` message raised, or `none` when validation passes. -/
def zoom_validation_error (iskorea : Bool) (zoom : Int) : Option String :=
  if iskorea = false ∧ ¬(7 ≤ zoom ∧ zoom ≤ 8) then
    some "외국 위치의 경우 zoom 값은 7 또는 8이어야 합니다."
  else if iskorea = true ∧ ¬(10 ≤ zoom ∧ zoom ≤ 16) then
    some "한반도 내 위치의 경우 zoom 값은 10에서 16 사이여야 합니다."
  else none

/-- Geocoding-failure message of `create_map_quiz` (line 252). -/
def invalid_location_msg : String := "유효하지 않은 좌표입니다. 다시 시도해주세요."

/-- Fixed instruction paragraph opening the success message of
`create_map_quiz` (lines 275-276). -/
def create_message_instr : String :=
  "(반드시 아래 문구를 그대로 사용자에게 보여주고, 마크다운 링크를 클릭 가능한 상태로 제공하시오. 이후 이미지 중점을 기준으로 출제했다는 것을 설명하고, \x27어떤 (국가/행정구역명, 시도/시군구/읍면동, 산/강/섬/바다 등)인가요?\x27 처럼 세부 정답 유형을 설명하시오.)"

/-- Success message of `create_map_quiz` (lines 274-280), built from the
allocated quiz id, the VWorld image URL and the caller-supplied quiz type
(right-associated so the interpolated pieces are easy to point at). -/
def create_message (quiz_id url quiz_type : String) : String :=
  create_message_instr ++
    ("🗺️ 퀴즈가 생성되었습니다! (ID: " ++
      (quiz_id ++
        (")\n📍 [지도 열람](" ++
          (url ++
            (")\n\n이미지 한가운데 지점은 어느 " ++
              (quiz_type ++ "일까요?"))))))

/-- Embedding of the tool `create_map_quiz` (lines 199-285).  The body
runs inside `try/except`, so every raised `ValueError` message reaches the
caller wrapped as `f"❌ 오류 발생: {str(e)}"`.  Control flow: zoom
validation (lines 243-246), reverse geocoding (lines 248-252), candidate
construction and `store.create` (lines 257-267), URL and message building
(lines 270-281).  `tags=None` defaults via `tags or []` (line 264).  The
returned pair is (store left behind, result). -/
def create_map_quiz (geocode : Geocoder) (s : QuizStore) (condition : String)
    (iskorea : Bool) (quiz_type : String) (lat lon : String) (zoom : Int)
    (tags : Option (List String)) : QuizStore × Except String String :=
  match zoom_validation_error iskorea zoom with
  | some m => (s, Except.error ("❌ 오류 발생: " ++ m))
  | none =>
    match geocode lat lon with
    | none => (s, Except.error ("❌ 오류 발생: " ++ invalid_location_msg))
    | some address =>
      let location_data : Candidate :=
        ⟨condition, address, quiz_type, lat, lon, zoom, tags.getD []⟩
      let sr := s.create location_data
      let vworld_url := build_vworld_static_url lon lat zoom "PHOTO" DEFAULT_IMAGE_SIZE
      (sr.1, Except.ok (create_message sr.2.quiz_id vworld_url quiz_type))

/-- Embedding of the call `create_map_quiz(...)` with the `zoom` argument
omitted: the source declares `zoom: int = 12` (line 206). -/
def create_map_quiz_default (geocode : Geocoder) (s : QuizStore)
    (condition : String) (iskorea : Bool) (quiz_type : String)
    (lat lon : String) (tags : Option (List String)) :
    QuizStore × Except String String :=
  create_map_quiz geocode s condition iskorea quiz_type lat lon 12 tags

/-- Hint response dict of `request_hint` (lines 301-306), in insertion
order. -/
def hint_payload (quiz_id : String) (c : Candidate) : List (String × Value) :=
  [("quiz_id", Value.str quiz_id),
   ("quiz_type", Value.str c.quiz_type),
   ("center", Value.center c.lon c.lat),
   ("condition", Value.str c.condition)]

/-- Embedding of the tool `request_hint` (lines 288-309): looks the id up
in the store; any exception (the store's `ValueError` included) is caught
and re-raised as `f"오류 발생: {str(e)}"`.  The store is returned untouched. -/
def request_hint (s : QuizStore) (quiz_id : String) :
    QuizStore × Except String (List (String × Value)) :=
  match s.get quiz_id with
  | Except.error e => (s, Except.error ("오류 발생: " ++ e))
  | Except.ok record => (s, Except.ok (hint_payload quiz_id record.candidate))

/-- Answer response dict of `request_answer` (lines 324-331), in insertion
order. -/
def answer_payload (quiz_id : String) (c : Candidate) : List (String × Value) :=
  [("quiz_id", Value.str quiz_id),
   ("quiz_type", Value.str c.quiz_type),
   ("center", Value.center c.lon c.lat),
   ("google_maps_url", Value.str (google_maps_url c.lat c.lon c.zoom)),
   ("condition", Value.str c.condition),
   ("address", Value.str c.address)]

/-- Embedding of the tool `request_answer` (lines 311-335): looks the id
up in the store; any exception is caught and re-raised as
`f"오류 발생: {str(e)}"`.  The store is returned untouched. -/
def request_answer (s : QuizStore) (quiz_id : String) :
    QuizStore × Except String (List (String × Value)) :=
  match s.get quiz_id with
  | Except.error e => (s, Except.error ("오류 발생: " ++ e))
  | Except.ok record => (s, Except.ok (answer_payload quiz_id record.candidate))

/-- Runs `store.create` once per candidate, in order, threading the store;
returns the final store and the records the calls returned. -/
def createSeq : List Candidate → QuizStore → QuizStore × List QuizRecord
  | [], s => (s, [])
  | c :: rest, s =>
    let sr := s.create c
    let tail := createSeq rest sr.1
    (tail.1, sr.2 :: tail.2)

/-- The store entries a run of `createSeq` is expected to append when the
store already holds `m` records: the `k`-th candidate (0-based) is stored
under `mkId (m + k + 1)`. -/
def expectedEntries : List Candidate → Nat → List (String × QuizRecord)
  | [], _ => []
  | c :: rest, m =>
    (mkId (m + 1), ⟨mkId (m + 1), c⟩) :: expectedEntries rest (m + 1)

/-- The identifiers `quiz-1 … quiz-m`. -/
def idsUpTo (m : Nat) : List String :=
  (List.range m).map (fun k => mkId (k + 1))

/-- A store is reachable when some sequence of successful creates builds
it from the empty store. -/
def Reachable (s : QuizStore) : Prop :=
  ∃ cands : List Candidate, (createSeq cands QuizStore.empty).1 = s

/-- A geocoder that never resolves a coordinate. -/
def geocode_none : Geocoder := fun _ _ => none

/-- A geocoder resolving every coordinate to a fixed Seoul address. -/
def geocode_seoul : Geocoder := fun _ _ => some "대한민국 서울특별시"

/-- A geocoder resolving every coordinate to a fixed Busan address. -/
def geocode_busan : Geocoder := fun _ _ => some "대한민국 부산광역시"

/-- A sample validated candidate (the spec's Seoul example). -/
def cand1 : Candidate :=
  ⟨"수도권", "대한민국 서울특별시", "시·도", "37.5665", "126.978", 12, []⟩

/-- The record a first successful create stores for `cand1`. -/
def rec1 : QuizRecord := ⟨"quiz-1", cand1⟩

/-- A store holding exactly the first created record. -/
def store1 : QuizStore := ⟨[("quiz-1", rec1)]⟩

theorem digitVal_digitChar (n : Nat) (h : n < 10) :
    digitVal (Nat.digitChar n) = n := by
  interval_cases n <;> rfl

theorem digitsVal_append_singleton (l : List Char) (c : Char) :
    digitsVal (l ++ [c]) = 10 * digitsVal l + digitVal c := by
  simp [digitsVal, List.foldl_append]

theorem digitsVal_natReprAux : ∀ f n, n < f → digitsVal (natReprAux f n) = n := by
  intro f
  induction f with
  | zero => intro n h; omega
  | succ f ih =>
    intro n h
    by_cases h10 : n < 10
    · simp [natReprAux, h10, digitsVal, digitVal_digitChar n h10]
    · have hdiv : n / 10 < f := by
        have h1 : n / 10 < n := Nat.div_lt_self (by omega) (by omega)
        omega
      have hrec := ih (n / 10) hdiv
      have hmod : n % 10 < 10 := Nat.mod_lt n (by omega)
      simp only [natReprAux, h10, if_false]
      rw [digitsVal_append_singleton, hrec, digitVal_digitChar (n % 10) hmod]
      omega

theorem natRepr_injective : Function.Injective natRepr := by
  intro a b h
  have hdata : natReprAux (a + 1) a = natReprAux (b + 1) b := by
    have := congrArg String.data h
    simpa [natRepr] using this
  have ha := digitsVal_natReprAux (a + 1) a (by omega)
  have hb := digitsVal_natReprAux (b + 1) b (by omega)
  rw [← ha, ← hb, hdata]

theorem mkId_injective : Function.Injective mkId := by
  intro a b h
  apply natRepr_injective
  have hdata := congrArg String.data h
  simp only [mkId] at hdata
  have hcancel : (natRepr a).data = (natRepr b).data := by
    have : "quiz-".data ++ (natRepr a).data = "quiz-".data ++ (natRepr b).data := by
      simpa [String.data_append] using hdata
    exact List.append_cancel_left this
  cases ha : natRepr a with
  | mk la =>
    cases hb : natRepr b with
    | mk lb =>
      rw [ha, hb] at hcancel
      simp at hcancel
      rw [hcancel]

theorem mkId_not_mem_idsUpTo (m : Nat) : mkId (m + 1) ∉ idsUpTo m := by
  intro hmem
  simp only [idsUpTo, List.mem_map, List.mem_range] at hmem
  obtain ⟨k, hk, heq⟩ := hmem
  have := mkId_injective heq
  omega

theorem assocSet_eq_append (l : List (String × QuizRecord)) (k : String)
    (v : QuizRecord) (h : ∀ p ∈ l, p.1 ≠ k) : assocSet l k v = l ++ [(k, v)] := by
  induction l with
  | nil => rfl
  | cons hd tl ih =>
    have hhd : hd.1 ≠ k := h hd (List.mem_cons_self hd tl)
    cases hd with
    | mk k0 v0 =>
      simp only [assocSet, if_neg hhd, List.cons_append, List.cons.injEq, true_and]
      exact ih (fun p hp => h p (List.mem_cons_of_mem _ hp))

theorem assocGet_set_self (l : List (String × QuizRecord)) (k : String)
    (v : QuizRecord) : assocGet (assocSet l k v) k = some v := by
  induction l with
  | nil => simp [assocSet, assocGet]
  | cons hd tl ih =>
    cases hd with
    | mk k0 v0 =>
      by_cases hk : k0 = k
      · simp [assocSet, assocGet, hk]
      · simp [assocSet, assocGet, hk, ih]

theorem assocGet_set_other (l : List (String × QuizRecord)) (k k2 : String)
    (v : QuizRecord) (h : k2 ≠ k) :
    assocGet (assocSet l k v) k2 = assocGet l k2 := by
  have h2 : k ≠ k2 := Ne.symm h
  induction l with
  | nil => simp [assocSet, assocGet, h2]
  | cons hd tl ih =>
    cases hd with
    | mk k0 v0 =>
      by_cases hk : k0 = k
      · subst hk
        simp [assocSet, assocGet, h2]
      · simp only [assocSet, if_neg hk]
        by_cases hk2 : k0 = k2
        · simp [assocGet, hk2]
        · simp [assocGet, hk2, ih]

theorem assocGet_some_mem (l : List (String × QuizRecord)) (k : String)
    (r : QuizRecord) (h : assocGet l k = some r) : k ∈ l.map Prod.fst := by
  induction l with
  | nil => simp [assocGet] at h
  | cons hd tl ih =>
    cases hd with
    | mk k0 v0 =>
      by_cases hk : k0 = k
      · simp [hk]
      · simp only [assocGet, if_neg hk] at h
        simp [ih h]

theorem idsUpTo_succ (m : Nat) : idsUpTo (m + 1) = idsUpTo m ++ [mkId (m + 1)] := by
  simp [idsUpTo, List.range_succ]

/-- Main invariant of consecutive successful creates: run from a store
holding exactly the identifiers `quiz-1 … quiz-m`, `createSeq` appends the
expected entries (no overwriting) and returns exactly the appended
records. -/
theorem createSeq_spec (cands : List Candidate) :
    ∀ (s : QuizStore) (m : Nat), s._store.length = m →
      s._store.map Prod.fst = idsUpTo m →
      (createSeq cands s).1._store = s._store ++ expectedEntries cands m ∧
        (createSeq cands s).2 = (expectedEntries cands m).map Prod.snd := by
  induction cands with
  | nil => intro s m _ _; simp [createSeq, expectedEntries]
  | cons c rest ih =>
    intro s m hlen hkeys
    have hfresh : ∀ p ∈ s._store, p.1 ≠ mkId (m + 1) := by
      intro p hp heq
      have hmem : mkId (m + 1) ∈ s._store.map Prod.fst := by
        rw [← heq]; exact List.mem_map_of_mem Prod.fst hp
      rw [hkeys] at hmem
      exact mkId_not_mem_idsUpTo m hmem
    have hset : assocSet s._store (mkId (m + 1)) ⟨mkId (m + 1), c⟩ =
        s._store ++ [(mkId (m + 1), ⟨mkId (m + 1), c⟩)] :=
      assocSet_eq_append _ _ _ hfresh
    have hcreate : s.create c =
        (⟨s._store ++ [(mkId (m + 1), ⟨mkId (m + 1), c⟩)]⟩, ⟨mkId (m + 1), c⟩) := by
      simp [QuizStore.create, hlen, hset]
    have hlen2 : (s._store ++ [(mkId (m + 1), (⟨mkId (m + 1), c⟩ : QuizRecord))]).length = m + 1 := by
      simp [hlen]
    have hkeys2 : (s._store ++ [(mkId (m + 1), (⟨mkId (m + 1), c⟩ : QuizRecord))]).map Prod.fst =
        idsUpTo (m + 1) := by
      simp [hkeys, idsUpTo_succ]
    have hrest := ih ⟨s._store ++ [(mkId (m + 1), ⟨mkId (m + 1), c⟩)]⟩ (m + 1) hlen2 hkeys2
    constructor
    · show (createSeq (c :: rest) s).1._store = _
      simp only [createSeq, hcreate]
      rw [hrest.1]
      simp [expectedEntries]
    · show (createSeq (c :: rest) s).2 = _
      simp only [createSeq, hcreate]
      rw [hrest.2]
      simp [expectedEntries]

theorem expectedEntries_keys (cands : List Candidate) :
    ∀ m, (expectedEntries cands m).map Prod.fst =
      (List.range cands.length).map (fun k => mkId (m + k + 1)) := by
  induction cands with
  | nil => intro m; simp [expectedEntries]
  | cons c rest ih =>
    intro m
    simp only [expectedEntries, List.map_cons, List.length_cons]
    rw [List.range_succ_eq_map, List.map_cons, List.map_map, ih (m + 1)]
    simp only [Nat.add_zero]
    congr 1
    apply List.map_congr_left
    intro k _
    simp only [Function.comp_apply, Nat.succ_eq_add_one]
    congr 1
    omega

theorem expectedEntries_keys_nodup (cands : List Candidate) (m : Nat) :
    ((expectedEntries cands m).map Prod.fst).Nodup := by
  rw [expectedEntries_keys]
  apply List.Nodup.map
  · intro a b hab
    have := mkId_injective hab
    omega
  · exact List.nodup_range _

theorem expectedEntries_length (cands : List Candidate) :
    ∀ m, (expectedEntries cands m).length = cands.length := by
  induction cands with
  | nil => intro m; rfl
  | cons c rest ih => intro m; simp [expectedEntries, ih]

theorem reachable_keys (s : QuizStore) (h : Reachable s) :
    s._store.map Prod.fst = idsUpTo s._store.length := by
  obtain ⟨cands, hc⟩ := h
  have hspec := createSeq_spec cands QuizStore.empty 0 rfl (by simp [QuizStore.empty, idsUpTo])
  rw [← hc, hspec.1]
  simp only [QuizStore.empty, List.nil_append]
  rw [expectedEntries_length, expectedEntries_keys]
  simp [idsUpTo]

/-- Claim C1: for every call to `create_map_quiz`, zoom validation accepts
exactly the inclusive ranges per region class — with `iskorea = false` it
passes iff `7 ≤ zoom ≤ 8`, with `iskorea = true` iff `10 ≤ zoom ≤ 16` —
and any zoom the validation rejects makes the call fail with the raised
message, leaving the store unchanged. -/
theorem create_map_quiz_zoom_validation (g : Geocoder) (s : QuizStore)
    (c qt lat lon : String) (t : Option (List String)) (z : Int) (ik : Bool)
    (m : String) :
    (zoom_validation_error false z = none ↔ (7 ≤ z ∧ z ≤ 8)) ∧
    (zoom_validation_error true z = none ↔ (10 ≤ z ∧ z ≤ 16)) ∧
    (zoom_validation_error ik z = some m →
      create_map_quiz g s c ik qt lat lon z t =
        (s, Except.error ("❌ 오류 발생: " ++ m))) := by
  refine ⟨?_, ?_, ?_⟩
  · by_cases h : 7 ≤ z ∧ z ≤ 8 <;> simp [zoom_validation_error, h]
  · by_cases h : 10 ≤ z ∧ z ≤ 16 <;> simp [zoom_validation_error, h]
  · intro h
    simp [create_map_quiz, h]

theorem create_map_quiz_zoom_validation_witness :
    create_map_quiz geocode_seoul QuizStore.empty "유럽" false "국가"
        "48.8566" "2.3522" 9 none =
      (QuizStore.empty,
        Except.error ("❌ 오류 발생: " ++ "외국 위치의 경우 zoom 값은 7 또는 8이어야 합니다.")) :=
  (create_map_quiz_zoom_validation geocode_seoul QuizStore.empty "유럽" "국가"
    "48.8566" "2.3522" none 9 false
    "외국 위치의 경우 zoom 값은 7 또는 8이어야 합니다.").2.2 (by decide)

/-- Claim C4: `create_map_quiz` fails atomically on both failure paths —
a rejected zoom fails with the wrapped InvalidZoom message, leaves the
store untouched and never consults the geocoder (the result does not
depend on it); an unresolved coordinate fails with the wrapped
InvalidLocation message and leaves the store untouched. -/
theorem create_map_quiz_atomic_failure (g g2 : Geocoder) (s : QuizStore)
    (c : String) (ik : Bool) (qt lat lon : String) (z : Int)
    (t : Option (List String)) (m : String) :
    (zoom_validation_error ik z = some m →
      create_map_quiz g s c ik qt lat lon z t =
          (s, Except.error ("❌ 오류 발생: " ++ m)) ∧
        create_map_quiz g s c ik qt lat lon z t =
          create_map_quiz g2 s c ik qt lat lon z t) ∧
    (zoom_validation_error ik z = none → g lat lon = none →
      create_map_quiz g s c ik qt lat lon z t =
        (s, Except.error ("❌ 오류 발생: " ++ invalid_location_msg))) := by
  constructor
  · intro h
    constructor <;> simp [create_map_quiz, h]
  · intro h hg
    simp [create_map_quiz, h, hg]

theorem create_map_quiz_atomic_failure_witness :
    (create_map_quiz geocode_seoul QuizStore.empty "유럽" false "국가"
        "48.8566" "2.3522" 9 none =
      (QuizStore.empty,
        Except.error ("❌ 오류 발생: " ++ "외국 위치의 경우 zoom 값은 7 또는 8이어야 합니다.")) ∧
      create_map_quiz geocode_seoul QuizStore.empty "유럽" false "국가"
        "48.8566" "2.3522" 9 none =
      create_map_quiz geocode_none QuizStore.empty "유럽" false "국가"
        "48.8566" "2.3522" 9 none) ∧
    create_map_quiz geocode_none QuizStore.empty "수도권" true "시·도"
        "37.5665" "126.978" 12 none =
      (QuizStore.empty, Except.error ("❌ 오류 발생: " ++ invalid_location_msg)) :=
  ⟨(create_map_quiz_atomic_failure geocode_seoul geocode_none QuizStore.empty
      "유럽" false "국가" "48.8566" "2.3522" 9 none
      "외국 위치의 경우 zoom 값은 7 또는 8이어야 합니다.").1 (by decide),
   (create_map_quiz_atomic_failure geocode_none geocode_seoul QuizStore.empty
      "수도권" true "시·도" "37.5665" "126.978" 12 none
      not_found_msg).2 (by decide) rfl⟩

/-- Claim C10: a `create_map_quiz` call that omits `zoom` uses the default
`zoom = 12`; consequently it is rejected by zoom validation whenever
`iskorea` is false, and passes zoom validation whenever `iskorea` is true. -/
theorem create_map_quiz_default_zoom (g : Geocoder) (s : QuizStore)
    (c : String) (ik : Bool) (qt lat lon : String) (t : Option (List String)) :
    create_map_quiz_default g s c ik qt lat lon t =
        create_map_quiz g s c ik qt lat lon 12 t ∧
    (ik = false → create_map_quiz_default g s c ik qt lat lon t =
      (s, Except.error
        ("❌ 오류 발생: " ++ "외국 위치의 경우 zoom 값은 7 또는 8이어야 합니다."))) ∧
    (ik = true → zoom_validation_error ik 12 = none) := by
  refine ⟨rfl, ?_, ?_⟩
  · intro h
    subst h
    rfl
  · intro h
    subst h
    rfl

theorem create_map_quiz_default_zoom_witness :
    create_map_quiz_default geocode_seoul QuizStore.empty "유럽" false "국가"
        "48.8566" "2.3522" none =
      (QuizStore.empty,
        Except.error ("❌ 오류 발생: " ++ "외국 위치의 경우 zoom 값은 7 또는 8이어야 합니다.")) ∧
    zoom_validation_error true 12 = none :=
  ⟨(create_map_quiz_default_zoom geocode_seoul QuizStore.empty "유럽" false
      "국가" "48.8566" "2.3522" none).2.1 rfl,
   (create_map_quiz_default_zoom geocode_seoul QuizStore.empty "유럽" true
      "국가" "48.8566" "2.3522" none).2.2 rfl⟩

/-- Claim C2: for every quiz identifier present in the store, a successful
`request_hint` returns exactly the fields quiz_id, quiz_type,
center {lon, lat} and condition taken from the stored record, and the
response's keys never include `address`. -/
theorem request_hint_fields (s : QuizStore) (id : String) (r : QuizRecord)
    (h : assocGet s._store id = some r) :
    (request_hint s id).2 = Except.ok (hint_payload id r.candidate) ∧
    (hint_payload id r.candidate).map Prod.fst =
      ["quiz_id", "quiz_type", "center", "condition"] ∧
    "address" ∉ (hint_payload id r.candidate).map Prod.fst := by
  refine ⟨?_, rfl, ?_⟩
  · simp [request_hint, QuizStore.get, h]
  · simp only [hint_payload, List.map_cons, List.map_nil]
    decide

theorem request_hint_fields_witness :
    (request_hint store1 "quiz-1").2 = Except.ok (hint_payload "quiz-1" rec1.candidate) ∧
    (hint_payload "quiz-1" rec1.candidate).map Prod.fst =
      ["quiz_id", "quiz_type", "center", "condition"] ∧
    "address" ∉ (hint_payload "quiz-1" rec1.candidate).map Prod.fst :=
  request_hint_fields store1 "quiz-1" rec1 (by decide)

/-- Claim C7 counterexample: `QuizStore.get` on an absent identifier does
carry a NotFound-style message, but the message is
`"Unknown quiz_id; request a new quiz first."`, not the claimed
`"unknown quiz id; request a new quiz first."`. -/
theorem store_get_message_counterexample :
    QuizStore.get ⟨[]⟩ "quiz-1" =
      Except.error "Unknown quiz_id; request a new quiz first." ∧
    "Unknown quiz_id; request a new quiz first." ≠
      "unknown quiz id; request a new quiz first." :=
  ⟨rfl, by decide⟩

/-- Claim C7 (amended): for every identifier absent from the store,
`QuizStore.get` fails with the message
`"Unknown quiz_id; request a new quiz first."`; lookup is exact string
match, and for every identifier present, `get` returns the stored record. -/
theorem store_get_spec (s : QuizStore) (id : String) :
    (assocGet s._store id = none →
      s.get id = Except.error "Unknown quiz_id; request a new quiz first.") ∧
    (∀ r, assocGet s._store id = some r → s.get id = Except.ok r) := by
  constructor
  · intro h
    simp [QuizStore.get, h, not_found_msg]
  · intro r h
    simp [QuizStore.get, h]

theorem store_get_spec_witness :
    QuizStore.get ⟨[]⟩ "quiz-9" =
      Except.error "Unknown quiz_id; request a new quiz first." ∧
    QuizStore.get store1 "quiz-1" = Except.ok rec1 :=
  ⟨(store_get_spec ⟨[]⟩ "quiz-9").1 rfl,
   (store_get_spec store1 "quiz-1").2 rec1 (by decide)⟩

/-- Claim C8 counterexample: on an identifier never produced by a create,
`request_hint` does not propagate the store's NotFound error unchanged —
the message reaches the caller prefixed with `"오류 발생: "`. -/
theorem hint_error_wrapped_counterexample :
    (request_hint ⟨[]⟩ "quiz-1").2 =
      Except.error ("오류 발생: " ++ not_found_msg) ∧
    ("오류 발생: " ++ not_found_msg) ≠ not_found_msg :=
  ⟨rfl, by decide⟩

/-- Claim C8 (amended): for every identifier never produced by a
successful create, `request_hint` and `request_answer` fail with the
store's NotFound error, its message wrapped by the tools' exception
handler as `"오류 발생: " ++ not_found_msg`. -/
theorem hint_answer_not_found_wrapped (s : QuizStore) (id : String)
    (h : assocGet s._store id = none) :
    (request_hint s id).2 = Except.error ("오류 발생: " ++ not_found_msg) ∧
    (request_answer s id).2 = Except.error ("오류 발생: " ++ not_found_msg) := by
  constructor <;> simp [request_hint, request_answer, QuizStore.get, h]

theorem hint_answer_not_found_wrapped_witness :
    (request_hint ⟨[]⟩ "quiz-7").2 =
      Except.error ("오류 발생: " ++ not_found_msg) ∧
    (request_answer ⟨[]⟩ "quiz-7").2 =
      Except.error ("오류 발생: " ++ not_found_msg) :=
  hint_answer_not_found_wrapped ⟨[]⟩ "quiz-7" rfl

/-- Claim C3: after a successful create, `request_answer` on the allocated
identifier returns quiz_id, quiz_type, center {lon, lat}, condition, the
address resolved at creation and the Google-Maps URL built from
(lat, lon, zoom), all equal to the values fixed at creation; on the same
identifier `request_hint` exposes no `address` key and the create response
does not depend on the address, so `request_answer` is the only operation
whose response carries the address. -/
theorem request_answer_roundtrip (g : Geocoder) (s : QuizStore) (c : String)
    (ik : Bool) (qt lat lon : String) (z : Int) (t : Option (List String))
    (addr : String) (hv : zoom_validation_error ik z = none)
    (hg : g lat lon = some addr) :
    (request_answer (create_map_quiz g s c ik qt lat lon z t).1
        (mkId (s._store.length + 1))).2 =
      Except.ok [("quiz_id", Value.str (mkId (s._store.length + 1))),
                 ("quiz_type", Value.str qt),
                 ("center", Value.center lon lat),
                 ("google_maps_url", Value.str (google_maps_url lat lon z)),
                 ("condition", Value.str c),
                 ("address", Value.str addr)] ∧
    (∀ hp, (request_hint (create_map_quiz g s c ik qt lat lon z t).1
        (mkId (s._store.length + 1))).2 = Except.ok hp →
      "address" ∉ hp.map Prod.fst) ∧
    (∀ (g2 : Geocoder) (addr2 : String), g2 lat lon = some addr2 →
      (create_map_quiz g2 s c ik qt lat lon z t).2 =
        (create_map_quiz g s c ik qt lat lon z t).2) := by
  have hstore : (create_map_quiz g s c ik qt lat lon z t).1 =
      ⟨assocSet s._store (mkId (s._store.length + 1))
        ⟨mkId (s._store.length + 1), ⟨c, addr, qt, lat, lon, z, t.getD []⟩⟩⟩ := by
    simp [create_map_quiz, hv, hg, QuizStore.create]
  have hget : assocGet ((create_map_quiz g s c ik qt lat lon z t).1)._store
      (mkId (s._store.length + 1)) =
      some ⟨mkId (s._store.length + 1), ⟨c, addr, qt, lat, lon, z, t.getD []⟩⟩ := by
    rw [hstore]
    exact assocGet_set_self _ _ _
  refine ⟨?_, ?_, ?_⟩
  · simp [request_answer, QuizStore.get, hget, answer_payload]
  · intro hp hok
    simp only [request_hint, QuizStore.get, hget] at hok
    have hok2 : hint_payload (mkId (s._store.length + 1))
        ⟨c, addr, qt, lat, lon, z, t.getD []⟩ = hp := by
      cases hok
      rfl
    rw [← hok2]
    simp only [hint_payload, List.map_cons, List.map_nil]
    decide
  · intro g2 addr2 hg2
    simp [create_map_quiz, hv, hg, hg2, QuizStore.create]

theorem request_answer_roundtrip_witness :
    (request_answer (create_map_quiz geocode_seoul QuizStore.empty "수도권" true
        "시·도" "37.5665" "126.978" 12 none).1
        (mkId (QuizStore.empty._store.length + 1))).2 =
      Except.ok [("quiz_id", Value.str (mkId (QuizStore.empty._store.length + 1))),
                 ("quiz_type", Value.str "시·도"),
                 ("center", Value.center "126.978" "37.5665"),
                 ("google_maps_url", Value.str (google_maps_url "37.5665" "126.978" 12)),
                 ("condition", Value.str "수도권"),
                 ("address", Value.str "대한민국 서울특별시")] ∧
    (create_map_quiz geocode_busan QuizStore.empty "수도권" true "시·도"
        "37.5665" "126.978" 12 none).2 =
      (create_map_quiz geocode_seoul QuizStore.empty "수도권" true "시·도"
        "37.5665" "126.978" 12 none).2 :=
  ⟨(request_answer_roundtrip geocode_seoul QuizStore.empty "수도권" true "시·도"
      "37.5665" "126.978" 12 none "대한민국 서울특별시" (by decide) rfl).1,
   (request_answer_roundtrip geocode_seoul QuizStore.empty "수도권" true "시·도"
      "37.5665" "126.978" 12 none "대한민국 서울특별시" (by decide) rfl).2.2
      geocode_busan "대한민국 부산광역시" rfl⟩

/-- Claim C5: starting from the empty store, N consecutive successful
`store.create` calls build exactly the expected entries: the k-th call
(1-based) allocates `mkId k` (`"quiz-k"`), stores the record under it and
returns it, the N identifiers are pairwise distinct, nothing is
overwritten (all N entries are present, in order), and concretely the
first two identifiers are `"quiz-1"` and `"quiz-2"`. -/
theorem store_create_sequence_spec (cands : List Candidate) :
    (createSeq cands QuizStore.empty).1._store = expectedEntries cands 0 ∧
    (createSeq cands QuizStore.empty).2 = (expectedEntries cands 0).map Prod.snd ∧
    (expectedEntries cands 0).map Prod.fst =
      (List.range cands.length).map (fun k => mkId (k + 1)) ∧
    ((expectedEntries cands 0).map Prod.fst).Nodup ∧
    (createSeq cands QuizStore.empty).1._store.length = cands.length ∧
    mkId 1 = "quiz-1" ∧ mkId 2 = "quiz-2" := by
  have hspec := createSeq_spec cands QuizStore.empty 0 rfl
    (by simp [QuizStore.empty, idsUpTo])
  have hstore : (createSeq cands QuizStore.empty).1._store = expectedEntries cands 0 := by
    rw [hspec.1]
    simp [QuizStore.empty]
  refine ⟨hstore, hspec.2, ?_, expectedEntries_keys_nodup cands 0, ?_, by decide, by decide⟩
  · rw [expectedEntries_keys]
    simp
  · rw [hstore, expectedEntries_length]

/-- Claim C6: every successful `create_map_quiz` call answers with the
message built from the allocated quiz identifier, the VWorld image URL
constructed from (lon, lat, zoom, basemap="PHOTO") and the caller-supplied
quiz type — each occurs verbatim in the message — and the response never
depends on the resolved address (it is withheld by construction). -/
theorem create_map_quiz_response_disclosure (g : Geocoder) (s : QuizStore)
    (c : String) (ik : Bool) (qt lat lon : String) (z : Int)
    (t : Option (List String)) (addr : String)
    (hv : zoom_validation_error ik z = none) (hg : g lat lon = some addr) :
    (create_map_quiz g s c ik qt lat lon z t).2 =
      Except.ok (create_message (mkId (s._store.length + 1))
        (build_vworld_static_url lon lat z "PHOTO" DEFAULT_IMAGE_SIZE) qt) ∧
    (∃ a b, create_message (mkId (s._store.length + 1))
        (build_vworld_static_url lon lat z "PHOTO" DEFAULT_IMAGE_SIZE) qt =
      a ++ mkId (s._store.length + 1) ++ b) ∧
    (∃ a b, create_message (mkId (s._store.length + 1))
        (build_vworld_static_url lon lat z "PHOTO" DEFAULT_IMAGE_SIZE) qt =
      a ++ build_vworld_static_url lon lat z "PHOTO" DEFAULT_IMAGE_SIZE ++ b) ∧
    (∃ a b, create_message (mkId (s._store.length + 1))
        (build_vworld_static_url lon lat z "PHOTO" DEFAULT_IMAGE_SIZE) qt =
      a ++ qt ++ b) ∧
    (∀ (g2 : Geocoder) (addr2 : String), g2 lat lon = some addr2 →
      (create_map_quiz g2 s c ik qt lat lon z t).2 =
        (create_map_quiz g s c ik qt lat lon z t).2) := by
  refine ⟨?_, ?_, ?_, ?_, ?_⟩
  · simp [create_map_quiz, hv, hg, QuizStore.create]
  · exact ⟨create_message_instr ++ "🗺️ 퀴즈가 생성되었습니다! (ID: ",
      ")\n📍 [지도 열람](" ++
        (build_vworld_static_url lon lat z "PHOTO" DEFAULT_IMAGE_SIZE ++
          (")\n\n이미지 한가운데 지점은 어느 " ++ (qt ++ "일까요?"))),
      by simp [create_message, String.append_assoc]⟩
  · exact ⟨create_message_instr ++ ("🗺️ 퀴즈가 생성되었습니다! (ID: " ++
        (mkId (s._store.length + 1) ++ ")\n📍 [지도 열람](")),
      ")\n\n이미지 한가운데 지점은 어느 " ++ (qt ++ "일까요?"),
      by simp [create_message, String.append_assoc]⟩
  · exact ⟨create_message_instr ++ ("🗺️ 퀴즈가 생성되었습니다! (ID: " ++
        (mkId (s._store.length + 1) ++ (")\n📍 [지도 열람](" ++
          (build_vworld_static_url lon lat z "PHOTO" DEFAULT_IMAGE_SIZE ++
            ")\n\n이미지 한가운데 지점은 어느 ")))),
      "일까요?",
      by simp [create_message, String.append_assoc]⟩
  · intro g2 addr2 hg2
    simp [create_map_quiz, hv, hg, hg2, QuizStore.create]

theorem create_map_quiz_response_disclosure_witness :
    (create_map_quiz geocode_seoul QuizStore.empty "수도권" true "시·도"
        "37.5665" "126.978" 12 none).2 =
      Except.ok (create_message (mkId (QuizStore.empty._store.length + 1))
        (build_vworld_static_url "126.978" "37.5665" 12 "PHOTO" DEFAULT_IMAGE_SIZE)
        "시·도") ∧
    (create_map_quiz geocode_busan QuizStore.empty "수도권" true "시·도"
        "37.5665" "126.978" 12 none).2 =
      (create_map_quiz geocode_seoul QuizStore.empty "수도권" true "시·도"
        "37.5665" "126.978" 12 none).2 :=
  ⟨(create_map_quiz_response_disclosure geocode_seoul QuizStore.empty "수도권"
      true "시·도" "37.5665" "126.978" 12 none "대한민국 서울특별시"
      (by decide) rfl).1,
   (create_map_quiz_response_disclosure geocode_seoul QuizStore.empty "수도권"
      true "시·도" "37.5665" "126.978" 12 none "대한민국 서울특별시"
      (by decide) rfl).2.2.2.2 geocode_busan "대한민국 부산광역시" rfl⟩

/-- Claim C9: `request_hint` and `request_answer` never mutate the store —
each returns exactly the store it was given, on success and on failure —
and on any reachable store no operation updates or deletes a stored
record: `create_map_quiz` preserves every existing mapping. -/
theorem read_operations_frame (g : Geocoder) (s : QuizStore) (id c : String)
    (ik : Bool) (qt lat lon : String) (z : Int) (t : Option (List String)) :
    (request_hint s id).1 = s ∧
    (request_answer s id).1 = s ∧
    (Reachable s → ∀ k r, assocGet s._store k = some r →
      assocGet ((create_map_quiz g s c ik qt lat lon z t).1)._store k = some r) := by
  refine ⟨?_, ?_, ?_⟩
  · cases h : QuizStore.get s id <;> simp [request_hint, h]
  · cases h : QuizStore.get s id <;> simp [request_answer, h]
  · intro hreach k r hk
    have hkeys := reachable_keys s hreach
    cases hz : zoom_validation_error ik z with
    | some m => simpa [create_map_quiz, hz] using hk
    | none =>
      cases hg : g lat lon with
      | none => simpa [create_map_quiz, hz, hg] using hk
      | some addr =>
        have hkmem : k ∈ s._store.map Prod.fst := assocGet_some_mem _ _ _ hk
        have hkne : k ≠ mkId (s._store.length + 1) := by
          intro he
          rw [he, hkeys] at hkmem
          exact mkId_not_mem_idsUpTo _ hkmem
        simp only [create_map_quiz, hz, hg, QuizStore.create]
        rw [assocGet_set_other _ _ _ _ hkne]
        exact hk

theorem read_operations_frame_witness :
    (request_hint store1 "quiz-1").1 = store1 ∧
    (request_answer store1 "quiz-1").1 = store1 ∧
    assocGet ((create_map_quiz geocode_seoul store1 "남부" true "시·도"
        "35.1796" "129.0756" 12 none).1)._store "quiz-1" = some rec1 :=
  ⟨(read_operations_frame geocode_seoul store1 "quiz-1" "남부" true "시·도"
      "35.1796" "129.0756" 12 none).1,
   (read_operations_frame geocode_seoul store1 "quiz-1" "남부" true "시·도"
      "35.1796" "129.0756" 12 none).2.1,
   (read_operations_frame geocode_seoul store1 "quiz-1" "남부" true "시·도"
      "35.1796" "129.0756" 12 none).2.2 ⟨[cand1], by decide⟩ "quiz-1" rec1
      (by decide)⟩
